import Mathlib

/-!
Shallow embedding of `mesh_utils.py` (FoundationPose_Evaluation).

The script orchestrates two external libraries: a mesh-processing engine
(`pymeshlab`, here the `World.loadMesh` / `World.decimate` / `World.saveMesh`
oracles) and a mesh loading/visualization library (`trimesh`, here
`World.trimeshLoad` / `World.display` / `World.exportMesh`).  Outcomes of
external calls are supplied by a `World` oracle; every operation returns the
list of external library calls it performed, the list of console messages it
printed, and an `Except PyExc` value whose `.error` case is a Python exception
propagating out of the operation to its caller.

Python floats are modelled as `ℚ` (the comparisons and arithmetic performed by
the script are exact on the values it handles), Python `int` as `ℤ`/`ℕ`, and
`None`-able parameters as `Option`.
-/

namespace MeshUtils

/-- A Python exception value, tagged by the exception class the script can
raise or observe.  Exceptions coming out of external library calls are tagged
`libError`; `argparse`'s `parser.error` raises `SystemExit`, which is not a
subclass of `Exception` and hence is not caught by `except Exception`. -/
inductive PyExc where
  | valueError (msg : String)
  | fileNotFoundError (msg : String)
  | zeroDivisionError (msg : String)
  | libError (msg : String)
  | systemExit (msg : String)
deriving DecidableEq

/-- Whether `except Exception` catches this exception: everything except
`SystemExit` (the only `BaseException`-only class appearing in the model). -/
def PyExc.isExceptionClass : PyExc → Bool
  | .systemExit _ => false
  | _ => true

/-- A `pymeshlab` mesh, reduced to the only attribute the script reads:
`face_number()`. -/
structure MLMesh where
  faceNumber : ℕ
deriving DecidableEq

/-- A `trimesh` mesh, reduced to the attributes the script reads: the vertex
array, the face count, and the oriented-bounding-box extents
(`mesh.bounding_box.primitive.extents`, three nonnegative side lengths). -/
structure TMesh where
  vertices : List (ℚ × ℚ × ℚ)
  faces : ℕ
  obbExtents : ℚ × ℚ × ℚ
deriving DecidableEq

/-- `mesh.bounding_box.primitive.extents.min()`: the smallest of the three
oriented-bounding-box side lengths. -/
def TMesh.minExtent (m : TMesh) : ℚ :=
  min (min m.obbExtents.1 m.obbExtents.2.1) m.obbExtents.2.2

/-- `mesh.apply_scale(s)` followed by re-reading `mesh.bounding_box`: uniform
scaling by `s` multiplies every vertex coordinate by `s`; the minimal oriented
bounding box of the scaled vertex set is the scaled box, whose side lengths
(always nonnegative) are `|s|` times the original extents. -/
def TMesh.apply_scale (m : TMesh) (s : ℚ) : TMesh :=
  { vertices := m.vertices.map (fun v => (s * v.1, s * v.2.1, s * v.2.2)),
    faces := m.faces,
    obbExtents := (|s| * m.obbExtents.1, |s| * m.obbExtents.2.1,
                   |s| * m.obbExtents.2.2) }

/-- The keyword arguments of
`ms.meshing_decimation_quadric_edge_collapse_with_texture(...)` exactly as the
script passes them. -/
structure DecimateArgs where
  targetfacenum : Option ℤ
  qualitythr : ℚ
  extratcoordw : ℚ
  preserveboundary : Bool
  boundaryweight : ℚ
  optimalplacement : Bool
  planarquadric : Bool
  preservenormal : Bool
deriving DecidableEq

/-- One external library call made by the script, recorded in order. -/
inductive LibCall where
  | loadNewMesh (path : String)
  | decimate (args : DecimateArgs)
  | saveMesh (path : String)
  | tmLoad (path : String)
  | show
  | exportMesh (path : String) (m : TMesh)
deriving DecidableEq

/-- One console message printed by the script, with the data it interpolates
(the surrounding literal text of each `print` is fixed and elided). -/
inductive OutMsg where
  | loading (name : String)
  | targetFaces (ratio : ℚ) (tf : ℤ)
  | startDecimation (tf : Option ℤ) (textureWeight : ℚ)
  | saving (path : String)
  | done (inFaces outFaces : ℕ) (ratio : ℚ)
  | failed (e : PyExc)
  | errorMsg (e : PyExc)
  | traceback
  | origInfo (nVerts nFaces : ℕ) (extents : ℚ × ℚ × ℚ)
  | resizedInfo (nVerts nFaces : ℕ) (extents : ℚ × ℚ × ℚ)
deriving DecidableEq

/-- The oracle for the external environment: the filesystem and the outcome of
every external library call the script can make. -/
structure World where
  fileExists : String → Bool
  loadMesh : String → Except String MLMesh
  decimate : DecimateArgs → MLMesh → Except String MLMesh
  saveMesh : String → Except String Unit
  trimeshLoad : String → Except String TMesh
  display : Except String Unit
  exportMesh : String → Except String Unit

/-- The parameters of `simplify_textured_mesh`, with the Python defaults. -/
structure SimplifyParams where
  input_path : String
  output_path : String
  target_faces : Option ℤ := none
  reduction_ratio : Option ℚ := none
  texture_weight : ℚ := 3/2
  preserve_boundary : Bool := true
  boundary_weight : ℚ := 1
  quality_threshold : ℚ := 3/10
  planar : Bool := false
  optimal_placement : Bool := true
  verbose : Bool := true
deriving DecidableEq

/-- The `argparse` namespace of the CLI (`--input`, `--output`, `--downsample`,
`--size`, `--target-faces`, `--reduction-ratio`); optional flags default to
`None`. -/
structure Args where
  input : String
  output : String
  downsample : Bool := false
  size : Option ℚ := none
  target_faces : Option ℤ := none
  reduction_ratio : Option ℚ := none
deriving DecidableEq

/-- Python truthiness of an `Optional[int]`: `None` and `0` are falsy. -/
def truthyInt : Option ℤ → Bool
  | none => false
  | some n => n ≠ 0

/-- Python truthiness of an `Optional[float]`: `None` and `0.0` are falsy. -/
def truthyRat : Option ℚ → Bool
  | none => false
  | some r => r ≠ 0

/-- `os.path.basename`: the part of the path after the last slash. -/
def basename (p : String) : String := (p.splitOn "/").getLastD ""

/-- Python `int(...)` on a float: truncation toward zero. -/
def pyInt (q : ℚ) : ℤ := if 0 ≤ q then ⌊q⌋ else -⌊-q⌋

/-- Lines 72–83 of `simplify_textured_mesh`: the three parameter-validation
`raise`s and the input-file existence check, in program order.  These precede
every external library call. -/
def simplifyChecks (w : World) (p : SimplifyParams) : Except PyExc Unit :=
  if p.target_faces = none ∧ p.reduction_ratio = none then
    .error (.valueError "You must specify either target_faces or reduction_ratio")
  else if p.target_faces ≠ none ∧ p.reduction_ratio ≠ none then
    .error (.valueError "target_faces and reduction_ratio are mutually exclusive")
  else if p.reduction_ratio.elim false (fun r => decide (¬(0 ≤ r ∧ r < 1))) then
    .error (.valueError "reduction_ratio must be within [0, 1)")
  else if ¬ w.fileExists p.input_path then
    .error (.fileNotFoundError ("Input file " ++ p.input_path ++ " not found"))
  else .ok ()

/-- Lines 96–101: the target face count handed to the engine, and the log line
it produces.  With a ratio, `target_faces = max(int(input_faces * (1 - r)), 4)`
(reassigning the `target_faces` variable); otherwise the caller's value is kept. -/
def targetAndLog (p : SimplifyParams) (input_faces : ℕ) : Option ℤ × List OutMsg :=
  match p.reduction_ratio with
  | some r =>
    let tgt : ℤ := max (pyInt ((input_faces : ℚ) * (1 - r))) 4
    (some tgt, if p.verbose then [.targetFaces r tgt] else [])
  | none => (p.target_faces, [])

/-- Lines 107–116: the keyword arguments built for the engine call. -/
def decimateArgsOf (p : SimplifyParams) (tf : Option ℤ) : DecimateArgs :=
  { targetfacenum := tf,
    qualitythr := p.quality_threshold,
    extratcoordw := p.texture_weight,
    preserveboundary := p.preserve_boundary,
    boundaryweight := p.boundary_weight,
    optimalplacement := p.optimal_placement,
    planarquadric := p.planar,
    preservenormal := true }

/-- Lines 85–129, after the checks have passed: load the mesh, compute the
target face count, decimate, compute statistics (a `ZeroDivisionError` when
the input mesh has 0 faces), save, and report. -/
def simplifyRun (w : World) (p : SimplifyParams) :
    List LibCall × List OutMsg × Except PyExc Unit :=
  let out0 : List OutMsg := if p.verbose then [.loading (basename p.input_path)] else []
  match w.loadMesh p.input_path with
  | .error e => ([.loadNewMesh p.input_path], out0, .error (.libError e))
  | .ok m =>
    let tfOut := targetAndLog p m.faceNumber
    let out1 := out0 ++ tfOut.2 ++
      (if p.verbose then [.startDecimation tfOut.1 p.texture_weight] else [])
    let dargs := decimateArgsOf p tfOut.1
    match w.decimate dargs m with
    | .error e =>
      ([.loadNewMesh p.input_path, .decimate dargs], out1, .error (.libError e))
    | .ok m2 =>
      if m.faceNumber = 0 then
        ([.loadNewMesh p.input_path, .decimate dargs], out1,
         .error (.zeroDivisionError "division by zero"))
      else
        let ratio : ℚ := 1 - ((m2.faceNumber : ℚ) / (m.faceNumber : ℚ))
        let out2 := out1 ++ (if p.verbose then [.saving p.output_path] else [])
        match w.saveMesh p.output_path with
        | .error e =>
          ([.loadNewMesh p.input_path, .decimate dargs, .saveMesh p.output_path],
           out2, .error (.libError e))
        | .ok _ =>
          ([.loadNewMesh p.input_path, .decimate dargs, .saveMesh p.output_path],
           out2 ++ (if p.verbose then [.done m.faceNumber m2.faceNumber ratio] else []),
           .ok ())

/-- The body of `simplify_textured_mesh` (the suite inside the `try`), lines
70–129: the validation/existence checks followed, when they pass, by the
load/decimate/save pipeline.  Returns the library calls made, the messages
printed, and `.error e` when the suite raises `e`. -/
def simplifyBody (w : World) (p : SimplifyParams) :
    List LibCall × List OutMsg × Except PyExc Unit :=
  match simplifyChecks w p with
  | .error e => ([], [], .error e)
  | .ok _ => simplifyRun w p

/-- `simplify_textured_mesh`: the body wrapped in
`try: ... except Exception as e: if verbose: print(f"❌ Failed: {e}")`.
An exception of class `Exception` is caught and (when verbose) reported; any
other exception would propagate. -/
def simplify_textured_mesh (w : World) (p : SimplifyParams) :
    List LibCall × List OutMsg × Except PyExc Unit :=
  match simplifyBody w p with
  | (tr, out, .ok _) => (tr, out, .ok ())
  | (tr, out, .error e) =>
    if e.isExceptionClass then
      (tr, out ++ (if p.verbose then [.failed e] else []), .ok ())
    else (tr, out, .error e)

/-- `display_mesh(mesh)`: with a `str` argument it calls `trimesh.load` and
then shows the scene; with a mesh object it shows the scene directly. -/
def display_mesh (w : World) (mesh : String ⊕ TMesh) :
    List LibCall × Except String Unit :=
  match mesh with
  | .inl path =>
    match w.trimeshLoad path with
    | .error e => ([.tmLoad path], .error e)
    | .ok _ =>
      match w.display with
      | .error e => ([.tmLoad path, .show], .error e)
      | .ok _ => ([.tmLoad path, .show], .ok ())
  | .inr _ =>
    match w.display with
    | .error e => ([.show], .error e)
    | .ok _ => ([.show], .ok ())

/-- The keyword arguments `dowsample_mesh` hands to `simplify_textured_mesh`
(lines 164–167): input, output, the two decimation arguments, `verbose=True`,
everything else left at its default. -/
def dowsampleParams (a : Args) : SimplifyParams :=
  { input_path := a.input, output_path := a.output,
    target_faces := a.target_faces, reduction_ratio := a.reduction_ratio,
    verbose := true }

/-- `dowsample_mesh(args)`: a truthiness guard calling `parser.error` (which
raises `SystemExit`) before the `try`, then `simplify_textured_mesh` and
`display_mesh` inside `try: ... except Exception: print; traceback; return 1`,
and `return 0` on success. -/
def dowsample_mesh (w : World) (a : Args) :
    List LibCall × List OutMsg × Except PyExc (Option ℤ) :=
  if ¬ truthyInt a.target_faces ∧ ¬ truthyRat a.reduction_ratio then
    ([], [], .error (.systemExit "You must specify either --target-faces or --reduction-ratio"))
  else
    match simplify_textured_mesh w (dowsampleParams a) with
    | (tr1, out1, .error e) =>
      if e.isExceptionClass then
        (tr1, out1 ++ [.errorMsg e, .traceback], .ok (some 1))
      else (tr1, out1, .error e)
    | (tr1, out1, .ok _) =>
      match display_mesh w (.inl a.output) with
      | (tr2, .error e) =>
        (tr1 ++ tr2, out1 ++ [.errorMsg (.libError e), .traceback], .ok (some 1))
      | (tr2, .ok _) => (tr1 ++ tr2, out1, .ok (some 0))

/-- `resize_mesh(args)`, lines 179–197: load, print original info, compute
`scale = (args.size / model_size) if args.size else 1.0`, apply it, print
resized info, display, export.  There is no `try`/`except`: every exception
raised by a library call propagates (`.error`).  The function returns `None`
when it completes. -/
def resize_mesh (w : World) (a : Args) :
    List LibCall × List OutMsg × Except PyExc (Option ℤ) :=
  match w.trimeshLoad a.input with
  | .error e => ([.tmLoad a.input], [], .error (.libError e))
  | .ok mesh =>
    let model_size := mesh.minExtent
    let out1 : List OutMsg := [.origInfo mesh.vertices.length mesh.faces mesh.obbExtents]
    let scale : ℚ := if truthyRat a.size then (a.size.getD 0) / model_size else 1
    let mesh2 := mesh.apply_scale scale
    let out2 := out1 ++ [.resizedInfo mesh2.vertices.length mesh2.faces mesh2.obbExtents]
    match w.display with
    | .error e => ([.tmLoad a.input, .show], out2, .error (.libError e))
    | .ok _ =>
      match w.exportMesh a.output with
      | .error e =>
        ([.tmLoad a.input, .show, .exportMesh a.output mesh2], out2,
         .error (.libError e))
      | .ok _ =>
        ([.tmLoad a.input, .show, .exportMesh a.output mesh2], out2, .ok none)

/-- The `__main__` dispatch: `dowsample_mesh` when `--downsample` is given,
else `resize_mesh`. -/
def mainDispatch (w : World) (a : Args) :
    List LibCall × List OutMsg × Except PyExc (Option ℤ) :=
  if a.downsample then dowsample_mesh w a else resize_mesh w a

/-- The first mesh passed to `mesh.export` in a call trace, if any. -/
def exportedMeshOf : List LibCall → Option TMesh
  | [] => none
  | .exportMesh _ m :: _ => some m
  | _ :: rest => exportedMeshOf rest

/-- Whether a propagated result is a `FileNotFoundError`. -/
def isFNF : Except PyExc Unit → Bool
  | .error (.fileNotFoundError _) => true
  | _ => false

/-- Whether a console message reports an exception: the `❌ Failed: {e}` line
of `simplify_textured_mesh`, or the `Error: {e}` line and the traceback dump
of `dowsample_mesh`.  All other messages are informational. -/
def isErrorReport : OutMsg → Bool
  | .failed _ => true
  | .errorMsg _ => true
  | .traceback => true
  | _ => false

/-- The parameter-validation predicate of lines 72–79: not both absent, not
both present, and a present ratio lies in `[0, 1)`. -/
def paramsOK (p : SimplifyParams) : Prop :=
  ¬(p.target_faces = none ∧ p.reduction_ratio = none) ∧
  ¬(p.target_faces ≠ none ∧ p.reduction_ratio ≠ none) ∧
  ∀ r, p.reduction_ratio = some r → 0 ≤ r ∧ r < 1

instance (p : SimplifyParams) : Decidable (paramsOK p) := by
  unfold paramsOK; infer_instance

/-! ### Concrete sample environments and inputs, used to instantiate the
theorems on closed inputs. -/

/-- A sample `trimesh` mesh with oriented-bounding-box extents `(1, 2, 3)`. -/
def meshA : TMesh :=
  { vertices := [(1, 2, 3), (4, 5, 6)], faces := 12, obbExtents := (1, 2, 3) }

/-- A world in which every file exists and every external call succeeds; the
loaded `pymeshlab` mesh has 10 faces, decimation returns 4 faces. -/
def wAllOk : World :=
  { fileExists := fun _ => true,
    loadMesh := fun _ => .ok ⟨10⟩,
    decimate := fun _ _ => .ok ⟨4⟩,
    saveMesh := fun _ => .ok (),
    trimeshLoad := fun _ => .ok meshA,
    display := .ok (),
    exportMesh := fun _ => .ok () }

/-- A world in which `trimesh.load` raises. -/
def wLoadFail : World := { wAllOk with trimeshLoad := fun _ => .error "load failed" }

/-- A world in which no file exists. -/
def wNoFile : World := { wAllOk with fileExists := fun _ => false }

/-- A world in which `scene.show()` raises. -/
def wDisplayFail : World := { wAllOk with display := .error "no display" }

/-- A world in which `mesh.export` raises. -/
def wExportFail : World := { wAllOk with exportMesh := fun _ => .error "export failed" }

/-- Parameters providing only `target_faces`. -/
def pTF : SimplifyParams :=
  { input_path := "in.obj", output_path := "out.obj", target_faces := some 50 }

/-- Parameters providing only `target_faces`, with `verbose=False`. -/
def pTFq : SimplifyParams :=
  { input_path := "in.obj", output_path := "out.obj", target_faces := some 50,
    verbose := false }

/-- Parameters providing only `reduction_ratio = 1/4`. -/
def pR : SimplifyParams :=
  { input_path := "in.obj", output_path := "out.obj", reduction_ratio := some (1/4) }

/-- Parameters providing neither `target_faces` nor `reduction_ratio`. -/
def pNone : SimplifyParams := { input_path := "in.obj", output_path := "out.obj" }

/-- Parameters providing both `target_faces` and `reduction_ratio`. -/
def pBoth : SimplifyParams :=
  { input_path := "in.obj", output_path := "out.obj",
    target_faces := some 50, reduction_ratio := some (1/4) }

/-- Parameters with an out-of-range `reduction_ratio = 2`. -/
def pROut : SimplifyParams :=
  { input_path := "in.obj", output_path := "out.obj", reduction_ratio := some 2 }

/-- CLI arguments with only input/output. -/
def aPlain : Args := { input := "in.obj", output := "out.obj" }

/-- CLI arguments with `--target-faces 50`. -/
def aTF : Args := { input := "in.obj", output := "out.obj", target_faces := some 50 }

/-- CLI arguments with `--target-faces 0`. -/
def aTF0 : Args := { input := "in.obj", output := "out.obj", target_faces := some 0 }

/-- CLI arguments with `--reduction-ratio 0.0`. -/
def aRR0 : Args := { input := "in.obj", output := "out.obj", reduction_ratio := some 0 }

/-- CLI arguments with `--size -2`. -/
def aNeg : Args := { input := "in.obj", output := "out.obj", size := some (-2) }

/-- Parameters providing only `reduction_ratio = 0`. -/
def pR0 : SimplifyParams :=
  { input_path := "in.obj", output_path := "out.obj", reduction_ratio := some 0 }

/-- The decimation arguments of the successful `wAllOk`/`pTF` run. -/
def dTF : DecimateArgs :=
  { targetfacenum := some 50, qualitythr := 3/10, extratcoordw := 3/2,
    preserveboundary := true, boundaryweight := 1, optimalplacement := true,
    planarquadric := false, preservenormal := true }

/-- CLI arguments with `--size 5`. -/
def aPos : Args := { input := "in.obj", output := "out.obj", size := some 5 }

/-- CLI arguments with `--size 0.0`. -/
def aZero : Args := { input := "in.obj", output := "out.obj", size := some 0 }

/-! ### Helper lemmas -/

/-- Classification of the exceptions raised by the validation/existence
checks: each of the three `ValueError` messages pins down which check failed,
and the `FileNotFoundError` pins down a missing input file. -/
theorem simplifyChecks_error_inv (w : World) (p : SimplifyParams) (e : PyExc)
    (h : simplifyChecks w p = .error e) :
    (e = .valueError "You must specify either target_faces or reduction_ratio" ∧
      p.target_faces = none ∧ p.reduction_ratio = none) ∨
    (e = .valueError "target_faces and reduction_ratio are mutually exclusive" ∧
      p.target_faces ≠ none ∧ p.reduction_ratio ≠ none) ∨
    (e = .valueError "reduction_ratio must be within [0, 1)" ∧
      ∃ r, p.reduction_ratio = some r ∧ ¬(0 ≤ r ∧ r < 1)) ∨
    (e = .fileNotFoundError ("Input file " ++ p.input_path ++ " not found") ∧
      w.fileExists p.input_path = false) := by
  unfold simplifyChecks at h
  split_ifs at h with h1 h2 h3 h4
  · simp only [Except.error.injEq] at h
    exact Or.inl ⟨h.symm, h1⟩
  · simp only [Except.error.injEq] at h
    exact Or.inr (Or.inl ⟨h.symm, h2⟩)
  · simp only [Except.error.injEq] at h
    refine Or.inr (Or.inr (Or.inl ⟨h.symm, ?_⟩))
    rcases hrr : p.reduction_ratio with _ | r
    · rw [hrr] at h3; simp [Option.elim] at h3
    · rw [hrr] at h3
      refine ⟨r, rfl, fun hc => ?_⟩
      have h3' : r < 0 ∨ 1 ≤ r := by simpa [Option.elim] using h3
      rcases h3' with hlt | hge
      · exact absurd hc.1 (not_le.mpr hlt)
      · exact absurd hc.2 (not_lt.mpr hge)
  · simp only [Except.error.injEq] at h
    exact Or.inr (Or.inr (Or.inr ⟨h.symm, by simpa using h4⟩))

/-- The load/decimate/save pipeline only raises exceptions coming out of
external library calls (`libError`) or the statistics division by zero. -/
theorem simplifyRun_error_kinds (w : World) (p : SimplifyParams) (e : PyExc)
    (h : (simplifyRun w p).2.2 = .error e) :
    (∃ s, e = .libError s) ∨ e = .zeroDivisionError "division by zero" := by
  unfold simplifyRun at h
  rcases hL : w.loadMesh p.input_path with e1 | m <;> rw [hL] at h
  · simp at h
    exact Or.inl ⟨e1, h.symm⟩
  · simp only at h
    rcases hD : w.decimate (decimateArgsOf p (targetAndLog p m.faceNumber).1) m
        with e2 | m2 <;> rw [hD] at h
    · simp at h
      exact Or.inl ⟨e2, h.symm⟩
    · by_cases hz : m.faceNumber = 0
      · simp [hz] at h
        exact Or.inr h.symm
      · simp only [hz, if_false] at h
        rcases hS : w.saveMesh p.output_path with e3 | u <;> rw [hS] at h
        · simp at h
          exact Or.inl ⟨e3, h.symm⟩
        · simp at h

/-- Classification of the `ValueError`s the body of `simplify_textured_mesh`
can raise: each of the three validation messages pins down which check
failed; no other program point raises a `ValueError`. -/
theorem simplifyBody_valueError_inv (w : World) (p : SimplifyParams) (m : String)
    (h : (simplifyBody w p).2.2 = .error (.valueError m)) :
    (m = "You must specify either target_faces or reduction_ratio" ∧
      p.target_faces = none ∧ p.reduction_ratio = none) ∨
    (m = "target_faces and reduction_ratio are mutually exclusive" ∧
      p.target_faces ≠ none ∧ p.reduction_ratio ≠ none) ∨
    (m = "reduction_ratio must be within [0, 1)" ∧
      ∃ r, p.reduction_ratio = some r ∧ ¬(0 ≤ r ∧ r < 1)) := by
  unfold simplifyBody at h
  rcases hC : simplifyChecks w p with e | u <;> rw [hC] at h
  · simp at h
    rcases simplifyChecks_error_inv w p e hC with ⟨he, hc⟩ | ⟨he, hc⟩ | ⟨he, hc⟩ | ⟨he, hc⟩ <;>
      rw [h] at he
    · exact Or.inl ⟨by simpa using he, hc⟩
    · exact Or.inr (Or.inl ⟨by simpa using he, hc⟩)
    · exact Or.inr (Or.inr ⟨by simpa using he, hc⟩)
    · simp at he
  · rcases simplifyRun_error_kinds w p _ h with ⟨s, hs⟩ | hs <;> simp at hs

/-- When a check raises, the body is that exception with no library calls and
no output. -/
theorem simplifyBody_of_checks_error (w : World) (p : SimplifyParams) (e : PyExc)
    (h : simplifyChecks w p = .error e) : simplifyBody w p = ([], [], .error e) := by
  unfold simplifyBody; rw [h]

/-- When the checks pass, the body is the load/decimate/save pipeline. -/
theorem simplifyBody_of_checks_ok (w : World) (p : SimplifyParams)
    (h : simplifyChecks w p = .ok ()) : simplifyBody w p = simplifyRun w p := by
  unfold simplifyBody; rw [h]

/-- The checks pass iff the parameters validate; passing also needs the input
file to exist. -/
theorem simplifyChecks_ok_inv (w : World) (p : SimplifyParams)
    (h : simplifyChecks w p = .ok ()) :
    paramsOK p ∧ w.fileExists p.input_path = true := by
  unfold simplifyChecks at h
  split_ifs at h with h1 h2 h3 h4
  refine ⟨⟨h1, h2, fun r hr => ?_⟩, by simpa using h4⟩
  rw [hr] at h3
  simpa [Option.elim] using h3

/-- Valid parameters and an existing input file pass all checks. -/
theorem simplifyChecks_ok (w : World) (p : SimplifyParams)
    (h1 : paramsOK p) (h2 : w.fileExists p.input_path = true) :
    simplifyChecks w p = .ok () := by
  obtain ⟨g1, g2, g3⟩ := h1
  have hc3 : ¬(p.reduction_ratio.elim false
      (fun r => decide (¬(0 ≤ r ∧ r < 1))) = true) := by
    rcases hrr : p.reduction_ratio with _ | r
    · simp [Option.elim]
    · simpa [Option.elim] using g3 r hrr
  unfold simplifyChecks
  rw [if_neg g1, if_neg g2, if_neg hc3, if_neg (by simp [h2])]

/-- Valid parameters with a missing input file fail exactly on the existence
check. -/
theorem simplifyChecks_fnf (w : World) (p : SimplifyParams)
    (h1 : paramsOK p) (h2 : w.fileExists p.input_path = false) :
    simplifyChecks w p =
      .error (.fileNotFoundError ("Input file " ++ p.input_path ++ " not found")) := by
  obtain ⟨g1, g2, g3⟩ := h1
  have hc3 : ¬(p.reduction_ratio.elim false
      (fun r => decide (¬(0 ≤ r ∧ r < 1))) = true) := by
    rcases hrr : p.reduction_ratio with _ | r
    · simp [Option.elim]
    · simpa [Option.elim] using g3 r hrr
  unfold simplifyChecks
  rw [if_neg g1, if_neg g2, if_neg hc3, if_pos (by simp [h2])]

/-- C2: `simplify_textured_mesh` requires exactly one of `target_faces` and
`reduction_ratio`: when both are `None` or both are given, the validation step
raises the corresponding `ValueError` and no library call (hence no
decimation) happens; a call providing exactly one of them never hits either of
these two `ValueError`s. -/
theorem C2_mutual_exclusion (w : World) (p : SimplifyParams) :
    (p.target_faces = none ∧ p.reduction_ratio = none →
      simplifyBody w p = ([], [],
        .error (.valueError "You must specify either target_faces or reduction_ratio"))) ∧
    (p.target_faces ≠ none ∧ p.reduction_ratio ≠ none →
      simplifyBody w p = ([], [],
        .error (.valueError "target_faces and reduction_ratio are mutually exclusive"))) ∧
    ((p.target_faces = none ∧ p.reduction_ratio ≠ none) ∨
     (p.target_faces ≠ none ∧ p.reduction_ratio = none) →
      (simplifyBody w p).2.2 ≠
        .error (.valueError "You must specify either target_faces or reduction_ratio") ∧
      (simplifyBody w p).2.2 ≠
        .error (.valueError "target_faces and reduction_ratio are mutually exclusive")) := by
  refine ⟨fun h => ?_, fun h => ?_, fun h => ⟨fun hq => ?_, fun hq => ?_⟩⟩
  · exact simplifyBody_of_checks_error w p _ (by unfold simplifyChecks; rw [if_pos h])
  · refine simplifyBody_of_checks_error w p _ ?_
    unfold simplifyChecks
    rw [if_neg (fun hc => h.1 hc.1), if_pos h]
  · rcases simplifyBody_valueError_inv w p _ hq with ⟨hm, hc⟩ | ⟨hm, hc⟩ | ⟨hm, hc⟩
    · rcases h with ⟨h1, h2⟩ | ⟨h1, h2⟩
      · exact h2 hc.2
      · exact h1 hc.1
    · exact absurd hm (by decide)
    · exact absurd hm (by decide)
  · rcases simplifyBody_valueError_inv w p _ hq with ⟨hm, hc⟩ | ⟨hm, hc⟩ | ⟨hm, hc⟩
    · exact absurd hm (by decide)
    · rcases h with ⟨h1, h2⟩ | ⟨h1, h2⟩
      · exact hc.1 h1
      · exact hc.2 h2
    · exact absurd hm (by decide)

/-- Witness for C2, at concrete inputs: both absent raises the first
`ValueError` with no library calls, both present raises the second, and a call
with only `target_faces` hits neither. -/
theorem C2_mutual_exclusion_witness :
    (pNone.target_faces = none ∧ pNone.reduction_ratio = none) ∧
    simplifyBody wAllOk pNone = ([], [],
      .error (.valueError "You must specify either target_faces or reduction_ratio")) ∧
    simplifyBody wAllOk pBoth = ([], [],
      .error (.valueError "target_faces and reduction_ratio are mutually exclusive")) ∧
    ((simplifyBody wAllOk pTF).2.2 ≠
      .error (.valueError "You must specify either target_faces or reduction_ratio") ∧
     (simplifyBody wAllOk pTF).2.2 ≠
      .error (.valueError "target_faces and reduction_ratio are mutually exclusive")) := by
  refine ⟨⟨rfl, rfl⟩, (C2_mutual_exclusion wAllOk pNone).1 ⟨rfl, rfl⟩,
    (C2_mutual_exclusion wAllOk pBoth).2.1 ⟨by decide, by decide⟩,
    (C2_mutual_exclusion wAllOk pTF).2.2 (Or.inr ⟨by decide, rfl⟩)⟩

/-- C3: for a call with `reduction_ratio` given (and `target_faces` absent, so
that the call reaches the range check), the range `ValueError` is raised iff
the ratio is outside `[0, 1)`; every ratio in `[0, 1)` passes the check. -/
theorem C3_range_check (w : World) (p : SimplifyParams) (r : ℚ)
    (hrr : p.reduction_ratio = some r) (htf : p.target_faces = none) :
    (simplifyBody w p).2.2 =
      .error (.valueError "reduction_ratio must be within [0, 1)") ↔
    ¬(0 ≤ r ∧ r < 1) := by
  constructor
  · intro h
    rcases simplifyBody_valueError_inv w p _ h with ⟨hm, hc⟩ | ⟨hm, hc⟩ | ⟨hm, hc⟩
    · exact absurd hm (by decide)
    · exact absurd hm (by decide)
    · obtain ⟨q, hq, hrange⟩ := hc
      rw [hrr] at hq
      simp only [Option.some.injEq] at hq
      exact hq ▸ hrange
  · intro hr
    have hch : simplifyChecks w p =
        .error (.valueError "reduction_ratio must be within [0, 1)") := by
      unfold simplifyChecks
      rw [if_neg (fun hc => Option.noConfusion (hrr ▸ hc.2)),
        if_neg (fun hc => hc.1 htf),
        if_pos (by rw [hrr]; simp only [Option.elim, decide_eq_true_eq]; exact hr)]
    rw [simplifyBody_of_checks_error w p _ hch]

/-- Witness for C3, at concrete inputs: ratio `2` raises the range
`ValueError`; ratio `1/4` does not. -/
theorem C3_range_check_witness :
    pROut.reduction_ratio = some 2 ∧ pROut.target_faces = none ∧
    (simplifyBody wAllOk pROut).2.2 =
      .error (.valueError "reduction_ratio must be within [0, 1)") ∧
    pR.reduction_ratio = some (1/4) ∧
    (simplifyBody wAllOk pR).2.2 ≠
      .error (.valueError "reduction_ratio must be within [0, 1)") := by
  refine ⟨rfl, rfl, (C3_range_check wAllOk pROut 2 rfl rfl).mpr (by norm_num),
    rfl, fun h => (C3_range_check wAllOk pR (1/4) rfl rfl).mp h (by norm_num)⟩

/-- Counterexample for C4 as stated: a call whose `input_path` does not exist
but whose parameters also fail validation (here: neither `target_faces` nor
`reduction_ratio`) raises the `ValueError`, not a `FileNotFoundError`, because
parameter validation runs first. -/
theorem C4_counterexample :
    wNoFile.fileExists pNone.input_path = false ∧
    (simplifyBody wNoFile pNone).2.2 =
      .error (.valueError "You must specify either target_faces or reduction_ratio") ∧
    isFNF (simplifyBody wNoFile pNone).2.2 = false := ⟨rfl, rfl, rfl⟩

/-- C4 (amended): parameter validation and the existence check precede every
mesh-library call — any validation failure, and any missing input file, yields
an empty call trace (nothing loaded, decimated or saved) — and every call that
passes parameter validation with a non-existent `input_path` raises the
`FileNotFoundError`. -/
theorem C4_checks_precede_library_calls (w : World) (p : SimplifyParams) :
    (¬ paramsOK p → (simplifyBody w p).1 = []) ∧
    (w.fileExists p.input_path = false → (simplifyBody w p).1 = []) ∧
    (paramsOK p → w.fileExists p.input_path = false →
      simplifyBody w p = ([], [],
        .error (.fileNotFoundError ("Input file " ++ p.input_path ++ " not found")))) := by
  refine ⟨fun h => ?_, fun h => ?_,
    fun h1 h2 => simplifyBody_of_checks_error w p _ (simplifyChecks_fnf w p h1 h2)⟩
  · rcases hC : simplifyChecks w p with e | u
    · rw [simplifyBody_of_checks_error w p _ hC]
    · cases u
      exact absurd (simplifyChecks_ok_inv w p hC).1 h
  · rcases hC : simplifyChecks w p with e | u
    · rw [simplifyBody_of_checks_error w p _ hC]
    · cases u
      rw [(simplifyChecks_ok_inv w p hC).2] at h
      cases h

/-- Witness for the amended C4, at concrete inputs: invalid parameters yield
no library calls, and valid parameters with a missing file raise the
`FileNotFoundError`. -/
theorem C4_checks_precede_library_calls_witness :
    ¬ paramsOK pBoth ∧ (simplifyBody wAllOk pBoth).1 = [] ∧
    paramsOK pTF ∧ wNoFile.fileExists pTF.input_path = false ∧
    simplifyBody wNoFile pTF = ([], [],
      .error (.fileNotFoundError ("Input file " ++ pTF.input_path ++ " not found"))) := by
  refine ⟨by decide, (C4_checks_precede_library_calls wAllOk pBoth).1 (by decide),
    by decide, rfl, (C4_checks_precede_library_calls wNoFile pTF).2.2 (by decide) rfl⟩

/-- The body of `simplify_textured_mesh` never raises `SystemExit`: its
exceptions are the validation `ValueError`s, the `FileNotFoundError`, library
exceptions and the statistics `ZeroDivisionError`, all of class `Exception`. -/
theorem simplifyBody_not_systemExit (w : World) (p : SimplifyParams) (m : String) :
    (simplifyBody w p).2.2 ≠ .error (.systemExit m) := by
  intro h
  unfold simplifyBody at h
  rcases hC : simplifyChecks w p with e | u <;> rw [hC] at h
  · have he : e = .systemExit m := by simpa using h
    rcases simplifyChecks_error_inv w p e hC with ⟨hm, _⟩ | ⟨hm, _⟩ | ⟨hm, _⟩ | ⟨hm, _⟩ <;>
      rw [he] at hm <;> simp at hm
  · rcases simplifyRun_error_kinds w p _ h with ⟨s, hs⟩ | hs <;> simp at hs

/-- `simplify_textured_mesh` never lets an exception propagate: its `try`
wraps the whole body and `except Exception` covers every exception the body
can raise. -/
theorem simplify_never_propagates (w : World) (p : SimplifyParams) :
    (simplify_textured_mesh w p).2.2 = .ok () := by
  unfold simplify_textured_mesh
  rcases hB : simplifyBody w p with ⟨tr, out, res⟩
  rcases res with e | u
  · cases e <;> simp [PyExc.isExceptionClass]
    case systemExit s =>
      have := simplifyBody_not_systemExit w p s
      rw [hB] at this
      simp at this
  · simp

/-- When the body raises and `verbose` holds, the caught exception is
reported on the console. -/
theorem simplify_prints_failure (w : World) (p : SimplifyParams) (e : PyExc)
    (hB : (simplifyBody w p).2.2 = .error e) (hv : p.verbose = true) :
    OutMsg.failed e ∈ (simplify_textured_mesh w p).2.1 := by
  unfold simplify_textured_mesh
  rcases hB' : simplifyBody w p with ⟨tr, out, res⟩
  rw [hB'] at hB
  simp only at hB
  subst hB
  have hcl : e.isExceptionClass = true := by
    cases e <;> simp [PyExc.isExceptionClass]
    case systemExit s =>
      have := simplifyBody_not_systemExit w p s
      rw [hB'] at this
      simp at this
  simp [hcl, hv]

/-- When the truthiness guard passes, `dowsample_mesh` returns `0` if the
display succeeds and `1` if an exception was caught in the `try` body
(`simplify_textured_mesh` itself never raises, so the only body exceptions
come from `display_mesh`). -/
theorem dowsample_result (w : World) (a : Args)
    (hg : truthyInt a.target_faces = true ∨ truthyRat a.reduction_ratio = true) :
    (dowsample_mesh w a).2.2 =
      .ok (some (match (display_mesh w (.inl a.output)).2 with
        | .ok _ => 0
        | .error _ => 1)) := by
  have hng : ¬(¬ truthyInt a.target_faces = true ∧ ¬ truthyRat a.reduction_ratio = true) := by
    rcases hg with h | h <;> simp [h]
  unfold dowsample_mesh
  rw [if_neg hng]
  rcases hS : simplify_textured_mesh w (dowsampleParams a) with ⟨tr1, out1, res1⟩
  have hok := simplify_never_propagates w (dowsampleParams a)
  rw [hS] at hok
  simp only at hok
  subst hok
  rcases hD : display_mesh w (.inl a.output) with ⟨tr2, res2⟩
  rcases res2 with e | u <;> simp

/-- When the guard passes and `display_mesh` raises inside the `try` body,
`dowsample_mesh` catches the exception, prints the error line and the
traceback, and returns `1`. -/
theorem dowsample_catch_prints (w : World) (a : Args)
    (hg : truthyInt a.target_faces = true ∨ truthyRat a.reduction_ratio = true)
    (e : String) (hD : (display_mesh w (.inl a.output)).2 = .error e) :
    (dowsample_mesh w a).2.2 = .ok (some 1) ∧
    OutMsg.errorMsg (.libError e) ∈ (dowsample_mesh w a).2.1 ∧
    OutMsg.traceback ∈ (dowsample_mesh w a).2.1 := by
  have hng : ¬(¬ truthyInt a.target_faces = true ∧ ¬ truthyRat a.reduction_ratio = true) := by
    rcases hg with h | h <;> simp [h]
  unfold dowsample_mesh
  rw [if_neg hng]
  rcases hS : simplify_textured_mesh w (dowsampleParams a) with ⟨tr1, out1, res1⟩
  have hok := simplify_never_propagates w (dowsampleParams a)
  rw [hS] at hok
  simp only at hok
  subst hok
  rcases hDm : display_mesh w (.inl a.output) with ⟨tr2, res2⟩
  rw [hDm] at hD
  simp only at hD
  subst hD
  simp

/-- `resize_mesh` prints only informational messages: no element of its output
is an exception report, on any input. -/
theorem resize_no_error_report (w : World) (a : Args) (msg : OutMsg)
    (hmsg : msg ∈ (resize_mesh w a).2.1) : isErrorReport msg = false := by
  unfold resize_mesh at hmsg
  rcases hL : w.trimeshLoad a.input with e1 | m <;> rw [hL] at hmsg
  · simp at hmsg
  · simp only at hmsg
    rcases hD : w.display with e2 | u <;> rw [hD] at hmsg
    · simp at hmsg
      rcases hmsg with h | h <;> subst h <;> rfl
    · rcases hE : w.exportMesh a.output with e3 | u2 <;> rw [hE] at hmsg <;>
        · simp at hmsg
          rcases hmsg with h | h <;> subst h <;> rfl

/-- Counterexample for C1 as stated: in a world where `trimesh.load` raises,
`resize_mesh` lets the exception propagate to its caller (the result is the
exception itself) and prints no message describing it; and
`simplify_textured_mesh` called with `verbose=False` on a missing input file
catches the `FileNotFoundError` but prints nothing at all. -/
theorem C1_counterexample :
    (resize_mesh wLoadFail aPlain).2.2 = .error (.libError "load failed") ∧
    (resize_mesh wLoadFail aPlain).2.1 = [] ∧
    (simplifyBody wNoFile pTFq).2.2 =
      .error (.fileNotFoundError ("Input file " ++ "in.obj" ++ " not found")) ∧
    (simplify_textured_mesh wNoFile pTFq).2.2 = .ok () ∧
    (simplify_textured_mesh wNoFile pTFq).2.1 = [] := ⟨rfl, rfl, rfl, rfl, rfl⟩

/-- C1 (amended): exceptions in `simplify_textured_mesh` are all caught at the
top level of the operation — reported when `verbose` is true, silently
swallowed otherwise; exceptions in the `try` body of `dowsample_mesh` are
caught, the error and a traceback are printed, and a status is still returned;
but `resize_mesh` has no handler: an exception raised at any point of its body
(load, display, export) propagates to the caller, and `resize_mesh` never
prints a message describing an exception. -/
theorem C1_exception_handling (w : World) (p : SimplifyParams) (a : Args) :
    (simplify_textured_mesh w p).2.2 = .ok () ∧
    (∀ e, (simplifyBody w p).2.2 = .error e → p.verbose = true →
      OutMsg.failed e ∈ (simplify_textured_mesh w p).2.1) ∧
    (truthyInt a.target_faces = true ∨ truthyRat a.reduction_ratio = true →
      (∃ r, (dowsample_mesh w a).2.2 = .ok (some r)) ∧
      (∀ e, (display_mesh w (.inl a.output)).2 = .error e →
        (dowsample_mesh w a).2.2 = .ok (some 1) ∧
        OutMsg.errorMsg (.libError e) ∈ (dowsample_mesh w a).2.1 ∧
        OutMsg.traceback ∈ (dowsample_mesh w a).2.1)) ∧
    (∀ e, w.trimeshLoad a.input = .error e →
      (resize_mesh w a).2.2 = .error (.libError e)) ∧
    (∀ m e, w.trimeshLoad a.input = .ok m → w.display = .error e →
      (resize_mesh w a).2.2 = .error (.libError e)) ∧
    (∀ m e, w.trimeshLoad a.input = .ok m → w.display = .ok () →
      w.exportMesh a.output = .error e →
      (resize_mesh w a).2.2 = .error (.libError e)) ∧
    (∀ msg, msg ∈ (resize_mesh w a).2.1 → isErrorReport msg = false) := by
  refine ⟨simplify_never_propagates w p,
    fun e hB hv => simplify_prints_failure w p e hB hv,
    fun hg => ⟨⟨_, dowsample_result w a hg⟩,
      fun e hD => dowsample_catch_prints w a hg e hD⟩,
    fun e hL => ?_, fun m e hL hD => ?_, fun m e hL hD hE => ?_,
    fun msg hmsg => resize_no_error_report w a msg hmsg⟩
  · unfold resize_mesh
    rw [hL]
  · unfold resize_mesh
    rw [hL]
    simp only
    rw [hD]
  · unfold resize_mesh
    rw [hL]
    simp only
    rw [hD]
    simp only
    rw [hE]

/-- Witness for the amended C1, at concrete inputs: a caught-and-reported
simplify failure, a caught-and-printed dowsample failure returning `1`, and
propagated resize failures at each of its three library calls, with only
informational resize output. -/
theorem C1_exception_handling_witness :
    (simplify_textured_mesh wAllOk pTF).2.2 = .ok () ∧
    (simplifyBody wNoFile pTF).2.2 =
      .error (.fileNotFoundError ("Input file " ++ "in.obj" ++ " not found")) ∧
    OutMsg.failed (.fileNotFoundError ("Input file " ++ "in.obj" ++ " not found")) ∈
      (simplify_textured_mesh wNoFile pTF).2.1 ∧
    truthyInt aTF.target_faces = true ∧
    (display_mesh wDisplayFail (.inl aTF.output)).2 = .error "no display" ∧
    (dowsample_mesh wDisplayFail aTF).2.2 = .ok (some 1) ∧
    OutMsg.errorMsg (.libError "no display") ∈ (dowsample_mesh wDisplayFail aTF).2.1 ∧
    OutMsg.traceback ∈ (dowsample_mesh wDisplayFail aTF).2.1 ∧
    wLoadFail.trimeshLoad aPlain.input = .error "load failed" ∧
    (resize_mesh wLoadFail aPlain).2.2 = .error (.libError "load failed") ∧
    (resize_mesh wDisplayFail aPlain).2.2 = .error (.libError "no display") ∧
    (resize_mesh wExportFail aPlain).2.2 = .error (.libError "export failed") ∧
    OutMsg.origInfo 2 12 (1, 2, 3) ∈ (resize_mesh wAllOk aPlain).2.1 ∧
    isErrorReport (OutMsg.origInfo 2 12 (1, 2, 3)) = false := by
  have hd := (C1_exception_handling wDisplayFail pTF aTF).2.2.1 (Or.inl rfl)
  have hd2 := hd.2 "no display" rfl
  have hmem0 : OutMsg.origInfo 2 12 (1, 2, 3) ∈ (resize_mesh wAllOk aPlain).2.1 :=
    List.mem_cons_self _ _
  refine ⟨(C1_exception_handling wAllOk pTF aPlain).1, rfl,
    (C1_exception_handling wNoFile pTF aPlain).2.1 _ rfl rfl, rfl, rfl,
    hd2.1, hd2.2.1, hd2.2.2, rfl,
    (C1_exception_handling wLoadFail pTF aPlain).2.2.2.1 "load failed" rfl,
    (C1_exception_handling wDisplayFail pTF aPlain).2.2.2.2.1 meshA "no display" rfl rfl,
    (C1_exception_handling wExportFail pTF aPlain).2.2.2.2.2.1 meshA "export failed"
      rfl rfl rfl,
    hmem0,
    (C1_exception_handling wAllOk pTF aPlain).2.2.2.2.2.2 _ hmem0⟩

/-- The wrapper of `simplify_textured_mesh` changes neither the library-call
trace of the body nor (except for the failure report) its output. -/
theorem simplify_trace_eq (w : World) (p : SimplifyParams) :
    (simplify_textured_mesh w p).1 = (simplifyBody w p).1 := by
  unfold simplify_textured_mesh
  rcases hB : simplifyBody w p with ⟨tr, out, res⟩
  rcases res with e | u
  · cases hE : e.isExceptionClass <;> simp [hE]
  · simp

/-- Every decimation call in the pipeline's trace carries exactly the
arguments built by `decimateArgsOf` from the computed target face count, for
the mesh the load returned. -/
theorem simplifyRun_decimate_inv (w : World) (p : SimplifyParams) (d : DecimateArgs)
    (hd : LibCall.decimate d ∈ (simplifyRun w p).1) :
    ∃ m, w.loadMesh p.input_path = .ok m ∧
      d = decimateArgsOf p (targetAndLog p m.faceNumber).1 := by
  unfold simplifyRun at hd
  rcases hL : w.loadMesh p.input_path with e1 | m <;> rw [hL] at hd
  · simp at hd
  · refine ⟨m, rfl, ?_⟩
    simp only at hd
    rcases hD : w.decimate (decimateArgsOf p (targetAndLog p m.faceNumber).1) m
        with e2 | m2 <;> rw [hD] at hd
    · simp at hd
      exact hd
    · simp only at hd
      by_cases hz : m.faceNumber = 0
      · rw [if_pos hz] at hd
        simp at hd
        exact hd
      · rw [if_neg hz] at hd
        rcases hS : w.saveMesh p.output_path with e3 | u <;> rw [hS] at hd <;>
          · simp at hd
            exact hd

/-- A pipeline run that finishes normally performed a decimation call. -/
theorem simplifyRun_ok_decimate (w : World) (p : SimplifyParams)
    (h : (simplifyRun w p).2.2 = .ok ()) :
    ∃ m, w.loadMesh p.input_path = .ok m ∧
      LibCall.decimate (decimateArgsOf p (targetAndLog p m.faceNumber).1) ∈
        (simplifyRun w p).1 := by
  rcases hR : simplifyRun w p with ⟨tr, out, res⟩
  rw [hR] at h
  simp only at h
  subst h
  have hR2 := hR
  unfold simplifyRun at hR2
  rcases hL : w.loadMesh p.input_path with e1 | m <;> rw [hL] at hR2
  · simp at hR2
  · refine ⟨m, rfl, ?_⟩
    simp only at hR2
    rcases hD : w.decimate (decimateArgsOf p (targetAndLog p m.faceNumber).1) m
        with e2 | m2 <;> rw [hD] at hR2
    · simp at hR2
    · simp only at hR2
      by_cases hz : m.faceNumber = 0
      · rw [if_pos hz] at hR2
        simp at hR2
      · rw [if_neg hz] at hR2
        rcases hS : w.saveMesh p.output_path with e3 | u <;> rw [hS] at hR2
        · simp at hR2
        · have htr : tr = [LibCall.loadNewMesh p.input_path,
              LibCall.decimate (decimateArgsOf p (targetAndLog p m.faceNumber).1),
              LibCall.saveMesh p.output_path] := by
            have hfst := congrArg (fun x => x.1) hR2
            simpa using hfst.symm
          subst htr
          simp

/-- From a body that finished normally, the checks passed. -/
theorem simplifyBody_ok_checks (w : World) (p : SimplifyParams)
    (hok : (simplifyBody w p).2.2 = .ok ()) : simplifyChecks w p = .ok () := by
  rcases hC : simplifyChecks w p with e | u
  · rw [simplifyBody_of_checks_error w p _ hC] at hok
    simp at hok
  · cases u; rfl

/-- C5: in every successful call, the engine receives the caller's
simplification parameters verbatim under the engine's keyword names —
`quality_threshold ↦ qualitythr`, `texture_weight ↦ extratcoordw`,
`preserve_boundary ↦ preserveboundary`, `boundary_weight ↦ boundaryweight`,
`optimal_placement ↦ optimalplacement`, `planar ↦ planarquadric` — and, when
the caller supplied `target_faces`, `target_faces ↦ targetfacenum`. -/
theorem C5_params_forwarded (w : World) (p : SimplifyParams)
    (hok : (simplifyBody w p).2.2 = .ok ()) :
    (∃ d, LibCall.decimate d ∈ (simplify_textured_mesh w p).1) ∧
    (∀ d, LibCall.decimate d ∈ (simplify_textured_mesh w p).1 →
      d.qualitythr = p.quality_threshold ∧
      d.extratcoordw = p.texture_weight ∧
      d.preserveboundary = p.preserve_boundary ∧
      d.boundaryweight = p.boundary_weight ∧
      d.optimalplacement = p.optimal_placement ∧
      d.planarquadric = p.planar ∧
      ∀ t, p.target_faces = some t → d.targetfacenum = some t) := by
  have hBC : simplifyChecks w p = .ok () := simplifyBody_ok_checks w p hok
  have hrun : simplifyBody w p = simplifyRun w p := simplifyBody_of_checks_ok w p hBC
  have hok' : (simplifyRun w p).2.2 = .ok () := by rw [← hrun]; exact hok
  rw [simplify_trace_eq, hrun]
  constructor
  · obtain ⟨m, _, hmem⟩ := simplifyRun_ok_decimate w p hok'
    exact ⟨_, hmem⟩
  · intro d hd
    obtain ⟨m, hm, hdeq⟩ := simplifyRun_decimate_inv w p d hd
    subst hdeq
    refine ⟨rfl, rfl, rfl, rfl, rfl, rfl, fun t ht => ?_⟩
    have hpok := (simplifyChecks_ok_inv w p hBC).1
    have hrr : p.reduction_ratio = none := by
      by_contra hne
      exact hpok.2.1 ⟨fun hc => Option.noConfusion (ht ▸ hc), hne⟩
    simp [decimateArgsOf, targetAndLog, hrr, ht]

/-- Witness for C5, at a concrete successful call with `target_faces = 50`. -/
theorem C5_params_forwarded_witness :
    (simplifyBody wAllOk pTF).2.2 = .ok () ∧
    LibCall.decimate dTF ∈ (simplify_textured_mesh wAllOk pTF).1 ∧
    (dTF.qualitythr = pTF.quality_threshold ∧
     dTF.extratcoordw = pTF.texture_weight ∧
     dTF.preserveboundary = pTF.preserve_boundary ∧
     dTF.boundaryweight = pTF.boundary_weight ∧
     dTF.optimalplacement = pTF.optimal_placement ∧
     dTF.planarquadric = pTF.planar ∧
     dTF.targetfacenum = some 50) := by
  have hmem : LibCall.decimate dTF ∈ (simplify_textured_mesh wAllOk pTF).1 := by
    obtain ⟨m, hm, hmem⟩ := simplifyRun_ok_decimate wAllOk pTF rfl
    have h3 : m = (⟨10⟩ : MLMesh) := by
      have h2 : (Except.ok (⟨10⟩ : MLMesh) : Except String MLMesh) = .ok m := hm
      injection h2 with h4
      exact h4.symm
    subst h3
    rw [← simplifyBody_of_checks_ok wAllOk pTF rfl, ← simplify_trace_eq] at hmem
    exact hmem
  have h := (C5_params_forwarded wAllOk pTF rfl).2 dTF hmem
  exact ⟨rfl, hmem, h.1, h.2.1, h.2.2.1, h.2.2.2.1, h.2.2.2.2.1, h.2.2.2.2.2.1,
    h.2.2.2.2.2.2 50 rfl⟩

/-- C6: when the guard passes, the downsample path informally returns exit
codes — `0` on success, `1` when an exception was caught in its `try` body —
while `resize_mesh` has no exit-code handling: whenever it returns, it returns
`None`. -/
theorem C6_exit_codes (w : World) (a : Args) :
    ((truthyInt a.target_faces = true ∨ truthyRat a.reduction_ratio = true) →
      ((display_mesh w (.inl a.output)).2 = .ok () →
        (dowsample_mesh w a).2.2 = .ok (some 0)) ∧
      (∀ e, (display_mesh w (.inl a.output)).2 = .error e →
        (dowsample_mesh w a).2.2 = .ok (some 1))) ∧
    (∀ r, (resize_mesh w a).2.2 = .ok r → r = none) := by
  refine ⟨fun hg => ⟨fun hD => ?_, fun e hD => ?_⟩, fun r hr => ?_⟩
  · rw [dowsample_result w a hg, hD]
  · rw [dowsample_result w a hg, hD]
  · unfold resize_mesh at hr
    rcases hL : w.trimeshLoad a.input with e1 | m <;> rw [hL] at hr
    · simp at hr
    · simp only at hr
      rcases hD : w.display with e2 | u <;> rw [hD] at hr
      · simp at hr
      · rcases hE : w.exportMesh a.output with e3 | u2 <;> rw [hE] at hr
        · simp at hr
        · simp at hr
          exact hr.symm

/-- Witness for C6, at concrete inputs: display succeeding gives `0`, display
raising gives `1`, and a completed resize returns `None`. -/
theorem C6_exit_codes_witness :
    (display_mesh wAllOk (.inl aTF.output)).2 = .ok () ∧
    (dowsample_mesh wAllOk aTF).2.2 = .ok (some 0) ∧
    (display_mesh wDisplayFail (.inl aTF.output)).2 = .error "no display" ∧
    (dowsample_mesh wDisplayFail aTF).2.2 = .ok (some 1) ∧
    (resize_mesh wAllOk aPlain).2.2 = .ok none := by
  refine ⟨rfl, ((C6_exit_codes wAllOk aTF).1 (Or.inl rfl)).1 rfl, rfl,
    ((C6_exit_codes wDisplayFail aTF).1 (Or.inl rfl)).2 "no display" rfl, rfl⟩

/-- C8: with a valid `reduction_ratio` `r` (and no `target_faces`), the face
count requested from the engine is exactly
`max(int(input_faces * (1 - r)), 4)`, where `int()` truncates (here equal to
the floor, the operand being nonnegative), and it is never below `4`. -/
theorem C8_target_from_ratio (w : World) (p : SimplifyParams) (r : ℚ) (m : MLMesh)
    (hrr : p.reduction_ratio = some r) (htf : p.target_faces = none)
    (hr0 : 0 ≤ r) (hr1 : r < 1)
    (hfe : w.fileExists p.input_path = true)
    (hL : w.loadMesh p.input_path = .ok m)
    (d : DecimateArgs) (hd : LibCall.decimate d ∈ (simplify_textured_mesh w p).1) :
    d.targetfacenum = some (max ⌊(m.faceNumber : ℚ) * (1 - r)⌋ 4) ∧
    pyInt ((m.faceNumber : ℚ) * (1 - r)) = ⌊(m.faceNumber : ℚ) * (1 - r)⌋ ∧
    (4 : ℤ) ≤ max ⌊(m.faceNumber : ℚ) * (1 - r)⌋ 4 := by
  have hpok : paramsOK p := by
    refine ⟨fun hc => Option.noConfusion (hrr ▸ hc.2), fun hc => hc.1 htf, fun q hq => ?_⟩
    rw [hrr] at hq
    simp only [Option.some.injEq] at hq
    exact hq ▸ ⟨hr0, hr1⟩
  have hchk : simplifyChecks w p = .ok () := simplifyChecks_ok w p hpok hfe
  rw [simplify_trace_eq, simplifyBody_of_checks_ok w p hchk] at hd
  obtain ⟨m', hm', hdeq⟩ := simplifyRun_decimate_inv w p d hd
  rw [hL] at hm'
  simp only [Except.ok.injEq] at hm'
  subst hm'
  subst hdeq
  have hnn : (0 : ℚ) ≤ (m.faceNumber : ℚ) * (1 - r) :=
    mul_nonneg (Nat.cast_nonneg _) (by linarith)
  have hpy : pyInt ((m.faceNumber : ℚ) * (1 - r)) = ⌊(m.faceNumber : ℚ) * (1 - r)⌋ := by
    unfold pyInt
    rw [if_pos hnn]
  refine ⟨?_, hpy, le_max_right _ _⟩
  simp [decimateArgsOf, targetAndLog, hrr, hpy]

/-- Witness for C8: 10 input faces and ratio `1/4` give `10 · 3/4 = 7.5`,
truncated to `7` (not rounded to `8`) and at least `4`. -/
theorem C8_target_from_ratio_witness :
    pR.reduction_ratio = some (1/4) ∧
    LibCall.decimate (decimateArgsOf pR (targetAndLog pR 10).1) ∈
      (simplify_textured_mesh wAllOk pR).1 ∧
    (decimateArgsOf pR (targetAndLog pR 10).1).targetfacenum =
      some (max ⌊((10 : ℕ) : ℚ) * (1 - 1/4)⌋ 4) ∧
    pyInt (((10 : ℕ) : ℚ) * (1 - 1/4)) = ⌊((10 : ℕ) : ℚ) * (1 - 1/4)⌋ ∧
    (4 : ℤ) ≤ max ⌊((10 : ℕ) : ℚ) * (1 - 1/4)⌋ 4 ∧
    max ⌊((10 : ℕ) : ℚ) * (1 - 1/4)⌋ 4 = 7 := by
  have hchk : simplifyChecks wAllOk pR = .ok () :=
    simplifyChecks_ok wAllOk pR
      ⟨fun hc => Option.noConfusion hc.2, fun hc => hc.1 rfl,
        fun q hq => by
          simp only [pR, Option.some.injEq] at hq
          constructor <;> rw [← hq] <;> norm_num⟩ rfl
  have hmem : LibCall.decimate (decimateArgsOf pR (targetAndLog pR 10).1) ∈
      (simplify_textured_mesh wAllOk pR).1 := by
    obtain ⟨m, hm, hmem⟩ := simplifyRun_ok_decimate wAllOk pR rfl
    have h2 : (Except.ok (⟨10⟩ : MLMesh) : Except String MLMesh) = .ok m := hm
    injection h2 with h3
    subst h3
    rw [← simplifyBody_of_checks_ok wAllOk pR hchk, ← simplify_trace_eq] at hmem
    exact hmem
  have h := C8_target_from_ratio wAllOk pR (1/4) ⟨10⟩ rfl rfl (by norm_num) (by norm_num)
    rfl rfl (decimateArgsOf pR (targetAndLog pR 10).1) hmem
  have hfl : ⌊((10 : ℕ) : ℚ) * (1 - 1/4)⌋ = 7 := by norm_num
  exact ⟨rfl, hmem, h.1, h.2.1, h.2.2, by rw [hfl]; norm_num⟩

/-- Uniform scaling multiplies the smallest oriented-bounding-box extent by
the absolute value of the scale factor. -/
theorem minExtent_apply_scale (m : TMesh) (s : ℚ) :
    (m.apply_scale s).minExtent = |s| * m.minExtent := by
  unfold TMesh.minExtent TMesh.apply_scale
  dsimp only
  rw [← mul_min_of_nonneg _ _ (abs_nonneg s), ← mul_min_of_nonneg _ _ (abs_nonneg s)]

/-- When the load and the display succeed, `resize_mesh` exports the loaded
mesh scaled by `(args.size / model_size) if args.size else 1.0`. -/
theorem resize_export (w : World) (a : Args) (m : TMesh)
    (hL : w.trimeshLoad a.input = .ok m) (hD : w.display = .ok ()) :
    exportedMeshOf (resize_mesh w a).1 =
      some (m.apply_scale
        (if truthyRat a.size then (a.size.getD 0) / m.minExtent else 1)) := by
  unfold resize_mesh
  rw [hL]
  simp only
  rw [hD]
  simp only
  rcases hE : w.exportMesh a.output with e | u <;> simp [exportedMeshOf]

/-- Counterexample for C7 as stated: with the non-zero size `-2` and a mesh of
minimum extent `1`, the exported mesh has minimum oriented-bounding-box extent
`2`, not `-2` — extents are nonnegative lengths, so a negative `--size` cannot
be attained. -/
theorem C7_counterexample :
    aNeg.size = some (-2) ∧ ((-2 : ℚ) ≠ 0) ∧
    (exportedMeshOf (resize_mesh wAllOk aNeg).1).map TMesh.minExtent = some 2 ∧
    (exportedMeshOf (resize_mesh wAllOk aNeg).1).map TMesh.minExtent ≠
      some (-2) := by
  have hexp : exportedMeshOf (resize_mesh wAllOk aNeg).1 =
      some (meshA.apply_scale ((-2) / meshA.minExtent)) := by
    rw [resize_export wAllOk aNeg meshA rfl rfl]
    norm_num [truthyRat, aNeg]
  have hval : (exportedMeshOf (resize_mesh wAllOk aNeg).1).map TMesh.minExtent =
      some 2 := by
    rw [hexp, Option.map_some', minExtent_apply_scale]
    norm_num [TMesh.minExtent, meshA]
  refine ⟨rfl, by norm_num, hval, ?_⟩
  rw [hval]
  intro h
  exact absurd (Option.some.inj h) (by norm_num)

/-- C7 (amended): for every mesh with positive minimum oriented-bounding-box
extent and every positive `args.size`, the applied scale factor is
`args.size / model_size` and the exported mesh's smallest
oriented-bounding-box extent equals `args.size`. -/
theorem C7_resize_to_real_size (w : World) (a : Args) (m : TMesh) (s : ℚ)
    (hL : w.trimeshLoad a.input = .ok m) (hD : w.display = .ok ())
    (hs : a.size = some s) (hspos : 0 < s) (hme : 0 < m.minExtent) :
    exportedMeshOf (resize_mesh w a).1 = some (m.apply_scale (s / m.minExtent)) ∧
    (m.apply_scale (s / m.minExtent)).minExtent = s := by
  have htrue : truthyRat a.size = true := by
    rw [hs]
    simp [truthyRat]
    exact ne_of_gt hspos
  constructor
  · rw [resize_export w a m hL hD, htrue]
    simp [hs]
  · rw [minExtent_apply_scale, abs_of_pos (div_pos hspos hme)]
    field_simp

/-- Witness for the amended C7: extents `(1, 2, 3)` and `--size 5` export a
mesh of minimum extent `5`. -/
theorem C7_resize_to_real_size_witness :
    aPos.size = some 5 ∧ (0 : ℚ) < 5 ∧ 0 < meshA.minExtent ∧
    exportedMeshOf (resize_mesh wAllOk aPos).1 =
      some (meshA.apply_scale (5 / meshA.minExtent)) ∧
    (meshA.apply_scale (5 / meshA.minExtent)).minExtent = 5 := by
  have h := C7_resize_to_real_size wAllOk aPos meshA 5 rfl rfl rfl (by norm_num)
    (by norm_num [TMesh.minExtent, meshA])
  exact ⟨rfl, by norm_num, by norm_num [TMesh.minExtent, meshA], h.1, h.2⟩

/-- C9: when `args.size` is absent or `0.0`, the scale factor is `1.0` and the
exported mesh has the same vertex coordinates as the loaded one — `--size 0.0`
silently performs no rescaling instead of scaling the mesh to zero. -/
theorem C9_size_zero_no_rescale (w : World) (a : Args) (m : TMesh)
    (hL : w.trimeshLoad a.input = .ok m) (hD : w.display = .ok ())
    (hz : a.size = none ∨ a.size = some 0) :
    exportedMeshOf (resize_mesh w a).1 = some (m.apply_scale 1) ∧
    (m.apply_scale 1).vertices = m.vertices := by
  have hfalse : truthyRat a.size = false := by
    rcases hz with h | h <;> simp [truthyRat, h]
  refine ⟨?_, ?_⟩
  · rw [resize_export w a m hL hD, hfalse]
    simp
  · unfold TMesh.apply_scale
    dsimp only
    simp only [one_mul]
    exact List.map_id' m.vertices

/-- Witness for C9: `--size 0.0` exports the mesh with unchanged vertices. -/
theorem C9_size_zero_no_rescale_witness :
    aZero.size = some 0 ∧
    exportedMeshOf (resize_mesh wAllOk aZero).1 = some (meshA.apply_scale 1) ∧
    (meshA.apply_scale 1).vertices = meshA.vertices := by
  have h := C9_size_zero_no_rescale wAllOk aZero meshA rfl rfl (Or.inr rfl)
  exact ⟨rfl, h.1, h.2⟩

/-- C10: `dowsample_mesh` tests its arguments by truthiness, not presence —
`--target-faces 0` or `--reduction-ratio 0.0` as the only simplification
argument hits `parser.error` (a `SystemExit`, before the `try`) exactly as if
neither were given — although `simplify_textured_mesh` itself accepts
`reduction_ratio = 0.0`: with it, no validation `ValueError` is ever raised. -/
theorem C10_truthiness_guard (w : World) (a : Args)
    (h : (a.target_faces = some 0 ∧ a.reduction_ratio = none) ∨
         (a.target_faces = none ∧ a.reduction_ratio = some 0)) :
    dowsample_mesh w a = ([], [],
      .error (.systemExit "You must specify either --target-faces or --reduction-ratio")) ∧
    ∀ (p : SimplifyParams) (msg : String),
      p.reduction_ratio = some 0 → p.target_faces = none →
      (simplifyBody w p).2.2 ≠ .error (.valueError msg) := by
  constructor
  · have hg : ¬ truthyInt a.target_faces = true ∧ ¬ truthyRat a.reduction_ratio = true := by
      rcases h with ⟨h1, h2⟩ | ⟨h1, h2⟩ <;> simp [truthyInt, truthyRat, h1, h2]
    unfold dowsample_mesh
    rw [if_pos hg]
  · intro p msg hrr htf hq
    rcases simplifyBody_valueError_inv w p msg hq with ⟨_, hc⟩ | ⟨_, hc⟩ | ⟨_, hc⟩
    · rw [hrr] at hc
      exact Option.noConfusion hc.2
    · exact hc.1 htf
    · obtain ⟨q, hqq, hrange⟩ := hc
      rw [hrr] at hqq
      simp only [Option.some.injEq] at hqq
      subst hqq
      exact hrange ⟨le_refl 0, by norm_num⟩

/-- Witness for C10: concrete calls with `--target-faces 0` and with
`--reduction-ratio 0.0` both hit the parser error, while
`simplify_textured_mesh` with `reduction_ratio = 0` raises no `ValueError`. -/
theorem C10_truthiness_guard_witness :
    aTF0.target_faces = some 0 ∧ aRR0.reduction_ratio = some 0 ∧
    dowsample_mesh wAllOk aTF0 = ([], [],
      .error (.systemExit "You must specify either --target-faces or --reduction-ratio")) ∧
    dowsample_mesh wAllOk aRR0 = ([], [],
      .error (.systemExit "You must specify either --target-faces or --reduction-ratio")) ∧
    pR0.reduction_ratio = some 0 ∧
    (simplifyBody wAllOk pR0).2.2 ≠
      .error (.valueError "reduction_ratio must be within [0, 1)") := by
  refine ⟨rfl, rfl, (C10_truthiness_guard wAllOk aTF0 (Or.inl ⟨rfl, rfl⟩)).1,
    (C10_truthiness_guard wAllOk aRR0 (Or.inr ⟨rfl, rfl⟩)).1, rfl,
    (C10_truthiness_guard wAllOk aTF0 (Or.inl ⟨rfl, rfl⟩)).2 pR0 _ rfl rfl⟩

end MeshUtils
